import Mathlib

/-!
Shallow embedding of `src/module/system_power/src/mod_system_power.c`
(Arm SCP-firmware "System Power Support" module).

Modelling conventions:
- `unsigned int` power-state values are `Nat`; framework status codes
  (`int`) are `Int`.
- Every entry point is a pure function from the immutable configuration,
  an environment `Env` (the return values of the external driver
  capabilities: those drivers are collaborators outside this module), and
  the mutable module context `Ctx`, to a status, the updated context and
  the ordered list of hardware/driver operations performed (`HwOp`).
  The trace order is exactly the call order of the C code.
- The C code frequently calls a driver and discards its return status;
  this is mirrored by consulting `Env` with a discarded `let _ := ...`
  binding while still emitting the operation into the trace.
-/

namespace SystemPower

/-- Framework status code for success. The framework headers
(`fwk_errno.h`) are not under `src/`; modelled from the spec: only the
distinctness of the error codes from `FWK_SUCCESS` and from each other
matters to this module. -/
def FWK_SUCCESS : Int := 0

/-- Modelled from the spec: framework access-denied status code. -/
def FWK_E_ACCESS : Int := -1

/-- Modelled from the spec: framework unsupported-operation status code. -/
def FWK_E_SUPPORT : Int := -2

/-- Modelled from the spec: framework out-of-memory status code. -/
def FWK_E_NOMEM : Int := -3

/-- Modelled from the spec: a generic driver-failure status code used by
the environments exercising failure paths. -/
def FWK_E_DEVICE : Int := -4

/-- Modelled from the spec: power-domain elemental state `off`
(`MOD_PD_STATE_OFF` of `mod_power_domain.h`, not under `src/`). -/
def MOD_PD_STATE_OFF : Nat := 0

/-- Modelled from the spec: power-domain elemental state `on`. -/
def MOD_PD_STATE_ON : Nat := 1

/-- Modelled from the spec: power-domain elemental `sleep` state. -/
def MOD_PD_STATE_SLEEP : Nat := 2

/-- Modelled from the spec: number of generic power-domain states. -/
def MOD_PD_STATE_COUNT : Nat := 3

/-- Modelled from the spec: the module's `RETAINED_SLEEP` composite state
(`MOD_SYSTEM_POWER_POWER_STATE_SLEEP0` of `mod_system_power.h`, not under
`src/`, defined there as `MOD_PD_STATE_COUNT`). -/
def MOD_SYSTEM_POWER_POWER_STATE_SLEEP0 : Nat := MOD_PD_STATE_COUNT

/-- Kind tag of a framework identifier (`fwk_id_t`). -/
inductive FwkIdType where
  | mod
  | elem
  | api
  | none
deriving DecidableEq

/-- Framework identifier: kind tag, module index and element/api index.
Modelled from the spec: `fwk_id.h` is not under `src/`; what the module
uses is construction, equality and module-id extraction. -/
structure FwkId where
  idType : FwkIdType
  moduleIdx : Nat
  elementIdx : Nat
deriving DecidableEq

/-- Modelled from the spec: `fwk_id_build_module_id`, the module-typed
identifier holding the module index of the argument. -/
def fwk_id_build_module_id (i : FwkId) : FwkId :=
  ⟨FwkIdType.mod, i.moduleIdx, 0⟩

/-- Modelled from the spec: `FWK_ID_NONE`, the sentinel identifier. -/
def FWK_ID_NONE : FwkId := ⟨FwkIdType.none, 0, 0⟩

/-- Modelled from the spec: generated module index of the power-domain
coordinator module; only its distinctness matters. -/
def FWK_MODULE_IDX_POWER_DOMAIN : Nat := 1

/-- Modelled from the spec: generated module index of this module. -/
def FWK_MODULE_IDX_SYSTEM_POWER : Nat := 2

/-- Modelled from the spec: `fwk_module_id_power_domain`, the module-typed
identifier of the power-domain coordinator module. -/
def fwk_module_id_power_domain : FwkId :=
  ⟨FwkIdType.mod, FWK_MODULE_IDX_POWER_DOMAIN, 0⟩

/-- Modelled from the spec: the api identifier of the driver-facing
capability (`mod_system_power_api_id_pd_driver` of `mod_system_power.h`,
not under `src/`). -/
def mod_system_power_api_id_pd_driver : FwkId :=
  ⟨FwkIdType.api, FWK_MODULE_IDX_SYSTEM_POWER, 0⟩

/-- Modelled from the spec: the api identifier of the transition-report
capability (`mod_system_power_api_id_pd_driver_input`). -/
def mod_system_power_api_id_pd_driver_input : FwkId :=
  ⟨FwkIdType.api, FWK_MODULE_IDX_SYSTEM_POWER, 1⟩

/-- Modelled from the spec: `MOD_PD_LEVEL_2` of `mod_power_domain.h`. -/
def MOD_PD_LEVEL_2 : Nat := 2

/-- Modelled from the spec: the `MOD_PD_COMPOSITE_STATE` encoding of
`mod_power_domain.h` (not under `src/`): 4-bit fields, level 0 at bit 0
up to level 3 at bit 12, the highest level at bit 16. -/
def MOD_PD_COMPOSITE_STATE (highestLevel l3 l2 l1 l0 : Nat) : Nat :=
  (highestLevel <<< 16) ||| (l3 <<< 12) ||| (l2 <<< 8) ||| (l1 <<< 4) ||| l0

/-- SoC wakeup composite state: fully on, two levels deep
(`MOD_SYSTEM_POWER_SOC_WAKEUP_STATE`, lines 24-29 of the C file). -/
def MOD_SYSTEM_POWER_SOC_WAKEUP_STATE : Nat :=
  MOD_PD_COMPOSITE_STATE MOD_PD_LEVEL_2 0
    MOD_PD_STATE_ON MOD_PD_STATE_ON MOD_PD_STATE_ON

/-- SoC wakeup power-domain identifier: the static constant of lines
31-33 of the C file, `FWK_ID_ELEMENT_INIT(FWK_MODULE_IDX_POWER_DOMAIN, 0)`. -/
def mod_system_power_soc_wakeup_pd_id : FwkId :=
  ⟨FwkIdType.elem, FWK_MODULE_IDX_POWER_DOMAIN, 0⟩

/-- The fields of `struct mod_system_power_config` consumed by the
entry points under verification: the two rail (SYS0/SYS1 PPU)
identifiers, the ordered auxiliary-unit (extended PPU) identifiers, and
the SoC wakeup interrupt line. The api identifiers and the shutdown
driver identifier of the C structure are consumed only by the bind
phase, which merely stores capability pointers modelled by `Env`. -/
structure Config where
  ppu_sys0_id : FwkId
  ppu_sys1_id : FwkId
  ext_ppus : List FwkId
  soc_wakeup_irq : Nat
deriving DecidableEq

/-- The mutable fields of `struct system_power_ctx`: the cached composite
state and the latched power-domain element identifier. The api-pointer
fields of the C structure are bound once and modelled by `Env`. -/
structure Ctx where
  state : Nat
  mod_pd_system_id : FwkId
deriving DecidableEq

/-- Which bound rail driver api pointer a rail operation goes through:
`system_power_ctx.sys0_api` or `system_power_ctx.sys1_api`. -/
inductive RailApi where
  | sys0
  | sys1
deriving DecidableEq

/-- One hardware/driver operation performed by the module, in call
order. -/
inductive HwOp where
  | irqDisable (irq : Nat)
  | irqClearPending (irq : Nat)
  | irqEnable (irq : Nat)
  | railSet (api : RailApi) (target : FwkId) (st : Nat)
  | railGet (api : RailApi) (target : FwkId)
  | ppuSet (target : FwkId) (st : Nat)
  | shutdownCall (reason : Nat)
  | reportUp (target : FwkId) (st : Nat)
deriving DecidableEq

/-- Return values of the external driver capabilities bound into the
module context: the rail drivers' `set_state`/`get_state`, the
auxiliary-unit drivers' `set_state`, the shutdown driver, the
coordinator's transition-report input and its restricted asynchronous
set-composite-state request. `get_state` yields a status and the state
written through the out-parameter. -/
structure Env where
  sys0Set : FwkId → Nat → Int
  extPpuSet : FwkId → Nat → Int
  shutdownDrv : Nat → Int
  sys0Get : FwkId → Int × Nat
  sys1Get : FwkId → Int × Nat
  reportUpStatus : FwkId → Nat → Int
  setCompositeAsync : FwkId → Bool → Nat → Int

/-- Loop body of `ext_ppus_set_state` (C lines 74-83): apply `state` to
each configured auxiliary unit in order through its own driver
capability; each driver's returned status is discarded, exactly as the C
loop discards the `set_state` return value. -/
def ext_ppus_set_state_loop (env : Env) (state : Nat) : List FwkId → List HwOp
  | [] => []
  | ppu_id :: rest =>
      let _ := env.extPpuSet ppu_id state
      HwOp.ppuSet ppu_id state :: ext_ppus_set_state_loop env state rest

/-- `ext_ppus_set_state` (C lines 74-83): a `void` function — it returns
no status, only the performed operations. -/
def ext_ppus_set_state (cfg : Config) (env : Env) (state : Nat) : List HwOp :=
  ext_ppus_set_state_loop env state cfg.ext_ppus

/-- `system_power_set_state` (C lines 89-143). `checkCall` is the result
of `fwk_module_check_call(pd_id)` (framework code outside `src/`,
modelled from the spec as an authorization outcome supplied by the
caller's environment). Note that the C code discards the statuses of the
two `sys0_api->set_state` calls in every branch; both rail writes go
through the SYS0 api pointer. -/
def system_power_set_state (cfg : Config) (env : Env) (ctx : Ctx)
    (checkCall : Int) (state : Nat) : Int × Ctx × List HwOp :=
  if checkCall ≠ FWK_SUCCESS then
    (checkCall, ctx, [])
  else
    let irq := cfg.soc_wakeup_irq
    if state = MOD_PD_STATE_ON then
      let _ := env.sys0Set cfg.ppu_sys0_id MOD_PD_STATE_ON
      let _ := env.sys0Set cfg.ppu_sys1_id MOD_PD_STATE_ON
      (FWK_SUCCESS, ctx,
        HwOp.irqDisable irq ::
        HwOp.railSet RailApi.sys0 cfg.ppu_sys0_id MOD_PD_STATE_ON ::
        HwOp.railSet RailApi.sys0 cfg.ppu_sys1_id MOD_PD_STATE_ON ::
        ext_ppus_set_state cfg env MOD_PD_STATE_ON)
    else if state = MOD_SYSTEM_POWER_POWER_STATE_SLEEP0 then
      let _ := env.sys0Set cfg.ppu_sys0_id MOD_PD_STATE_OFF
      let _ := env.sys0Set cfg.ppu_sys1_id MOD_PD_STATE_ON
      (FWK_SUCCESS, ctx,
        ext_ppus_set_state cfg env MOD_PD_STATE_OFF ++
        (HwOp.irqClearPending irq ::
         HwOp.railSet RailApi.sys0 cfg.ppu_sys0_id MOD_PD_STATE_OFF ::
         HwOp.railSet RailApi.sys0 cfg.ppu_sys1_id MOD_PD_STATE_ON ::
         [HwOp.irqEnable irq]))
    else if state = MOD_PD_STATE_OFF then
      let _ := env.sys0Set cfg.ppu_sys0_id MOD_PD_STATE_OFF
      let _ := env.sys0Set cfg.ppu_sys1_id MOD_PD_STATE_OFF
      (FWK_SUCCESS, ctx,
        HwOp.irqDisable irq ::
        (ext_ppus_set_state cfg env MOD_PD_STATE_OFF ++
         (HwOp.railSet RailApi.sys0 cfg.ppu_sys0_id MOD_PD_STATE_OFF ::
          [HwOp.railSet RailApi.sys0 cfg.ppu_sys1_id MOD_PD_STATE_OFF])))
    else
      (FWK_E_SUPPORT, ctx, [])

/-- `system_power_get_state` (C lines 145-156): after the call check, a
pure read of the cached composite state through the out-parameter. -/
def system_power_get_state (ctx : Ctx) (checkCall : Int) :
    Int × Option Nat × List HwOp :=
  if checkCall ≠ FWK_SUCCESS then
    (checkCall, Option.none, [])
  else
    (FWK_SUCCESS, Option.some ctx.state, [])

/-- `system_power_reset` (C lines 158-161): always unsupported. -/
def system_power_reset (ctx : Ctx) : Int × Ctx × List HwOp :=
  (FWK_E_SUPPORT, ctx, [])

/-- `system_power_shutdown` (C lines 163-173): run the `OFF` transition;
on failure return that status, otherwise invoke the shutdown driver with
the caller-supplied reason and return its status unchanged. -/
def system_power_shutdown (cfg : Config) (env : Env) (ctx : Ctx)
    (checkCall : Int) (reason : Nat) : Int × Ctx × List HwOp :=
  let r := system_power_set_state cfg env ctx checkCall MOD_PD_STATE_OFF
  if r.1 ≠ FWK_SUCCESS then
    r
  else
    (env.shutdownDrv reason, r.2.1, r.2.2 ++ [HwOp.shutdownCall reason])

/-- Outcome of the SoC wakeup interrupt handler: the asynchronous
composite-state requests issued (target, extended flag, composite
state) and whether the `fwk_expect(status == FWK_SUCCESS)` check held. -/
structure WakeupOutcome where
  requests : List (FwkId × Bool × Nat)
  expectOk : Bool
deriving DecidableEq

/-- `soc_wakeup_handler` (C lines 175-184): one asynchronous request to
the static `mod_system_power_soc_wakeup_pd_id` with the fixed wakeup
composite state; the returned status feeds `fwk_expect`. -/
def soc_wakeup_handler (env : Env) : WakeupOutcome :=
  let state := MOD_SYSTEM_POWER_SOC_WAKEUP_STATE
  let status :=
    env.setCompositeAsync mod_system_power_soc_wakeup_pd_id false state
  { requests := [(mod_system_power_soc_wakeup_pd_id, false, state)],
    expectOk := decide (status = FWK_SUCCESS) }

/-- `system_power_report_power_state_transition` (C lines 197-222): read
both rails (statuses discarded, module identifier and reported state
argument unused), derive the composite state, store it, forward it to
the coordinator (status fed to `fwk_expect`), return success. -/
def system_power_report_power_state_transition (cfg : Config) (env : Env)
    (ctx : Ctx) (module_id : FwkId) (state_arg : Nat) : Int × Ctx × List HwOp :=
  let sys0_state := (env.sys0Get cfg.ppu_sys0_id).2
  let sys1_state := (env.sys1Get cfg.ppu_sys1_id).2
  let newState :=
    if sys0_state = MOD_PD_STATE_ON ∧ sys1_state = MOD_PD_STATE_ON then
      MOD_PD_STATE_ON
    else if sys0_state = MOD_PD_STATE_OFF ∧ sys1_state = MOD_PD_STATE_ON then
      MOD_SYSTEM_POWER_POWER_STATE_SLEEP0
    else
      MOD_PD_STATE_OFF
  let ctx' := { ctx with state := newState }
  let _ := env.reportUpStatus ctx'.mod_pd_system_id newState
  (FWK_SUCCESS, ctx',
    [HwOp.railGet RailApi.sys0 cfg.ppu_sys0_id,
     HwOp.railGet RailApi.sys1 cfg.ppu_sys1_id,
     HwOp.reportUp ctx'.mod_pd_system_id newState])

/-- Which fixed capability a bind request hands back. -/
inductive BindApi where
  | pd_driver_api
  | pd_driver_input_api
deriving DecidableEq

/-- `system_power_process_bind_request` (C lines 316-338): the
driver-facing capability goes to any requester belonging to the
power-domain module, latching the requester identity; every other api
identifier falls into the `else` branch handing the transition-report
capability to the two configured rail identities. -/
def system_power_process_bind_request (cfg : Config) (ctx : Ctx)
    (requester_id pd_id api_id : FwkId) : Int × Ctx × Option BindApi :=
  if api_id = mod_system_power_api_id_pd_driver then
    if fwk_id_build_module_id requester_id ≠ fwk_module_id_power_domain then
      (FWK_E_ACCESS, ctx, Option.none)
    else
      (FWK_SUCCESS, { ctx with mod_pd_system_id := requester_id },
       Option.some BindApi.pd_driver_api)
  else
    if requester_id ≠ cfg.ppu_sys0_id ∧ requester_id ≠ cfg.ppu_sys1_id then
      (FWK_E_ACCESS, ctx, Option.none)
    else
      (FWK_SUCCESS, ctx, Option.some BindApi.pd_driver_input_api)

/-- `system_power_start` (C lines 340-365): probe SYS1 (rail B) first; a
failed read aborts with that status; rail B off seeds `OFF` without
consulting rail A; otherwise probe SYS0 (rail A): on yields `ON`,
anything else yields `RETAINED_SLEEP`. -/
def system_power_start (cfg : Config) (env : Env) (ctx : Ctx) :
    Int × Ctx × List HwOp :=
  let r1 := env.sys1Get cfg.ppu_sys1_id
  if r1.1 ≠ FWK_SUCCESS then
    (r1.1, ctx, [HwOp.railGet RailApi.sys1 cfg.ppu_sys1_id])
  else if r1.2 = MOD_PD_STATE_OFF then
    (FWK_SUCCESS, { ctx with state := MOD_PD_STATE_OFF },
     [HwOp.railGet RailApi.sys1 cfg.ppu_sys1_id])
  else
    let r0 := env.sys0Get cfg.ppu_sys0_id
    if r0.1 ≠ FWK_SUCCESS then
      (r0.1, ctx,
       [HwOp.railGet RailApi.sys1 cfg.ppu_sys1_id,
        HwOp.railGet RailApi.sys0 cfg.ppu_sys0_id])
    else
      (FWK_SUCCESS,
       { ctx with state :=
           if r0.2 = MOD_PD_STATE_ON then MOD_PD_STATE_ON
           else MOD_SYSTEM_POWER_POWER_STATE_SLEEP0 },
       [HwOp.railGet RailApi.sys1 cfg.ppu_sys1_id,
        HwOp.railGet RailApi.sys0 cfg.ppu_sys0_id])

/-!
Helper lemmas shared by the claim theorems.
-/

/-- The auxiliary-unit loop performs exactly one `set_state` operation per
configured unit, in configuration order, whatever statuses the unit
drivers return. -/
theorem ext_ppus_set_state_loop_eq_map (env : Env) (st : Nat) (l : List FwkId) :
    ext_ppus_set_state_loop env st l = l.map (fun u => HwOp.ppuSet u st) := by
  induction l with
  | nil => rfl
  | cons a tl ih => simp [ext_ppus_set_state_loop, ih]

/-- No rail operation ever appears in the auxiliary-unit loop trace. -/
theorem railSet_not_in_ext_loop (env : Env) (st : Nat) (l : List FwkId)
    (api : RailApi) (t : FwkId) (s : Nat) :
    HwOp.railSet api t s ∉ ext_ppus_set_state_loop env st l := by
  induction l with
  | nil => simp [ext_ppus_set_state_loop]
  | cons a tl ih => simp [ext_ppus_set_state_loop, ih]

/-- `system_power_set_state` never writes any module-context field. -/
theorem set_state_preserves_ctx (cfg : Config) (env : Env) (ctx : Ctx)
    (cc : Int) (state : Nat) :
    (system_power_set_state cfg env ctx cc state).2.1 = ctx := by
  unfold system_power_set_state
  split
  · rfl
  · split
    · rfl
    · split
      · rfl
      · split
        · rfl
        · rfl

/-- The status returned by `system_power_set_state` depends only on the
call-check outcome and the requested state, never on any driver's
returned status. -/
theorem set_state_status_char (cfg : Config) (env : Env) (ctx : Ctx)
    (cc : Int) (state : Nat) :
    (system_power_set_state cfg env ctx cc state).1 =
      if cc ≠ FWK_SUCCESS then cc
      else if state = MOD_PD_STATE_ON ∨
              state = MOD_SYSTEM_POWER_POWER_STATE_SLEEP0 ∨
              state = MOD_PD_STATE_OFF then FWK_SUCCESS
      else FWK_E_SUPPORT := by
  unfold system_power_set_state
  by_cases h : cc ≠ FWK_SUCCESS
  · simp [h]
  · by_cases h1 : state = MOD_PD_STATE_ON
    · simp [h, h1]
    · by_cases h2 : state = MOD_SYSTEM_POWER_POWER_STATE_SLEEP0
      · simp [h, h1, h2, MOD_SYSTEM_POWER_POWER_STATE_SLEEP0,
          MOD_PD_STATE_COUNT, MOD_PD_STATE_ON]
      · by_cases h3 : state = MOD_PD_STATE_OFF
        · simp [h, h1, h2, h3, MOD_SYSTEM_POWER_POWER_STATE_SLEEP0,
            MOD_PD_STATE_COUNT, MOD_PD_STATE_ON, MOD_PD_STATE_OFF]
        · simp [h, h1, h2, h3]

/-!
Concrete fixtures used by the closed witness and counterexample
theorems.
-/

/-- A representative configuration: two rails, two auxiliary units, a
wakeup interrupt line. -/
def cfgEx : Config :=
  { ppu_sys0_id := ⟨FwkIdType.elem, 3, 0⟩,
    ppu_sys1_id := ⟨FwkIdType.elem, 3, 1⟩,
    ext_ppus := [⟨FwkIdType.elem, 4, 0⟩, ⟨FwkIdType.elem, 4, 1⟩],
    soc_wakeup_irq := 16 }

/-- The module context as seeded by `system_power_mod_init`:
`mod_pd_system_id = FWK_ID_NONE`. -/
def ctx0 : Ctx := { state := MOD_PD_STATE_OFF, mod_pd_system_id := FWK_ID_NONE }

/-- An environment in which every external driver call succeeds and both
rails read back as on. -/
def envOk : Env :=
  { sys0Set := fun _ _ => FWK_SUCCESS,
    extPpuSet := fun _ _ => FWK_SUCCESS,
    shutdownDrv := fun _ => FWK_SUCCESS,
    sys0Get := fun _ => (FWK_SUCCESS, MOD_PD_STATE_ON),
    sys1Get := fun _ => (FWK_SUCCESS, MOD_PD_STATE_ON),
    reportUpStatus := fun _ _ => FWK_SUCCESS,
    setCompositeAsync := fun _ _ _ => FWK_SUCCESS }

/-- An environment in which every rail `set_state` call fails. -/
def envRailFail : Env := { envOk with sys0Set := fun _ _ => FWK_E_DEVICE }

/-- An environment in which rail B reads back as off. -/
def envRailBOff : Env :=
  { envOk with sys1Get := fun _ => (FWK_SUCCESS, MOD_PD_STATE_OFF) }

/-!
Claim theorems.
-/

/-- Claim C1: with a passing call check, requesting `ON` performs exactly
disable-wakeup-interrupt, rail A on, rail B on, all auxiliary units on;
requesting `RETAINED_SLEEP` performs exactly all auxiliary units off,
clear pending wakeup interrupt, rail A off, rail B on (never off),
enable wakeup interrupt; requesting `OFF` performs exactly
disable-wakeup-interrupt, all auxiliary units off, rail A off, rail B
off; any other value is rejected with `FWK_E_SUPPORT`, no hardware
operation performed and the context unchanged; and `reset` always
returns `FWK_E_SUPPORT`. -/
theorem C1_set_state_transition_table (cfg : Config) (env : Env) (ctx : Ctx)
    (state : Nat) :
    system_power_set_state cfg env ctx FWK_SUCCESS MOD_PD_STATE_ON =
      (FWK_SUCCESS, ctx,
        HwOp.irqDisable cfg.soc_wakeup_irq ::
        HwOp.railSet RailApi.sys0 cfg.ppu_sys0_id MOD_PD_STATE_ON ::
        HwOp.railSet RailApi.sys0 cfg.ppu_sys1_id MOD_PD_STATE_ON ::
        cfg.ext_ppus.map (fun u => HwOp.ppuSet u MOD_PD_STATE_ON)) ∧
    system_power_set_state cfg env ctx FWK_SUCCESS
        MOD_SYSTEM_POWER_POWER_STATE_SLEEP0 =
      (FWK_SUCCESS, ctx,
        cfg.ext_ppus.map (fun u => HwOp.ppuSet u MOD_PD_STATE_OFF) ++
        (HwOp.irqClearPending cfg.soc_wakeup_irq ::
         HwOp.railSet RailApi.sys0 cfg.ppu_sys0_id MOD_PD_STATE_OFF ::
         HwOp.railSet RailApi.sys0 cfg.ppu_sys1_id MOD_PD_STATE_ON ::
         [HwOp.irqEnable cfg.soc_wakeup_irq])) ∧
    system_power_set_state cfg env ctx FWK_SUCCESS MOD_PD_STATE_OFF =
      (FWK_SUCCESS, ctx,
        HwOp.irqDisable cfg.soc_wakeup_irq ::
        (cfg.ext_ppus.map (fun u => HwOp.ppuSet u MOD_PD_STATE_OFF) ++
         (HwOp.railSet RailApi.sys0 cfg.ppu_sys0_id MOD_PD_STATE_OFF ::
          [HwOp.railSet RailApi.sys0 cfg.ppu_sys1_id MOD_PD_STATE_OFF]))) ∧
    (state ≠ MOD_PD_STATE_ON → state ≠ MOD_SYSTEM_POWER_POWER_STATE_SLEEP0 →
      state ≠ MOD_PD_STATE_OFF →
      system_power_set_state cfg env ctx FWK_SUCCESS state =
        (FWK_E_SUPPORT, ctx, [])) ∧
    system_power_reset ctx = (FWK_E_SUPPORT, ctx, []) := by
  refine ⟨?_, ?_, ?_, fun h1 h2 h3 => ?_, rfl⟩
  · simp [system_power_set_state, ext_ppus_set_state,
      ext_ppus_set_state_loop_eq_map]
  · simp [system_power_set_state, ext_ppus_set_state,
      ext_ppus_set_state_loop_eq_map, MOD_SYSTEM_POWER_POWER_STATE_SLEEP0,
      MOD_PD_STATE_COUNT, MOD_PD_STATE_ON]
  · simp [system_power_set_state, ext_ppus_set_state,
      ext_ppus_set_state_loop_eq_map, MOD_SYSTEM_POWER_POWER_STATE_SLEEP0,
      MOD_PD_STATE_COUNT, MOD_PD_STATE_ON, MOD_PD_STATE_OFF]
  · simp [system_power_set_state, h1, h2, h3]

/-- Claim C1 witness: at the concrete unsupported value
`MOD_PD_STATE_SLEEP` the request is rejected with `FWK_E_SUPPORT`, no
operation performed, context unchanged. -/
theorem C1_set_state_transition_table_witness :
    system_power_set_state cfgEx envOk ctx0 FWK_SUCCESS MOD_PD_STATE_SLEEP =
      (FWK_E_SUPPORT, ctx0, []) :=
  (C1_set_state_transition_table cfgEx envOk ctx0 MOD_PD_STATE_SLEEP).2.2.2.1
    (by decide) (by decide) (by decide)

/-- Claim C3: the transition-report entry point, for every environment
and regardless of the reporting rail and of the state argument, reads
both rails, and the stored composite state is `ON` iff both rails are
on, `RETAINED_SLEEP` iff rail A is off and rail B is on, and one of the
three defined values (hence `OFF` in every other case); the trace reads
both rails and forwards exactly the stored state to the coordinator. -/
theorem C3_report_transition (cfg : Config) (env : Env) (ctx : Ctx)
    (module_id : FwkId) (state_arg : Nat) :
    (system_power_report_power_state_transition cfg env ctx module_id
        state_arg).1 = FWK_SUCCESS ∧
    ((system_power_report_power_state_transition cfg env ctx module_id
        state_arg).2.1.state = MOD_PD_STATE_ON ↔
      (env.sys0Get cfg.ppu_sys0_id).2 = MOD_PD_STATE_ON ∧
      (env.sys1Get cfg.ppu_sys1_id).2 = MOD_PD_STATE_ON) ∧
    ((system_power_report_power_state_transition cfg env ctx module_id
        state_arg).2.1.state = MOD_SYSTEM_POWER_POWER_STATE_SLEEP0 ↔
      (env.sys0Get cfg.ppu_sys0_id).2 = MOD_PD_STATE_OFF ∧
      (env.sys1Get cfg.ppu_sys1_id).2 = MOD_PD_STATE_ON) ∧
    ((system_power_report_power_state_transition cfg env ctx module_id
        state_arg).2.1.state = MOD_PD_STATE_ON ∨
     (system_power_report_power_state_transition cfg env ctx module_id
        state_arg).2.1.state = MOD_SYSTEM_POWER_POWER_STATE_SLEEP0 ∨
     (system_power_report_power_state_transition cfg env ctx module_id
        state_arg).2.1.state = MOD_PD_STATE_OFF) ∧
    (system_power_report_power_state_transition cfg env ctx module_id
        state_arg).2.2 =
      [HwOp.railGet RailApi.sys0 cfg.ppu_sys0_id,
       HwOp.railGet RailApi.sys1 cfg.ppu_sys1_id,
       HwOp.reportUp ctx.mod_pd_system_id
         (system_power_report_power_state_transition cfg env ctx module_id
           state_arg).2.1.state] := by
  simp only [system_power_report_power_state_transition, MOD_PD_STATE_ON,
    MOD_PD_STATE_OFF, MOD_SYSTEM_POWER_POWER_STATE_SLEEP0, MOD_PD_STATE_COUNT]
  by_cases hA : (env.sys0Get cfg.ppu_sys0_id).2 = 1 ∧
      (env.sys1Get cfg.ppu_sys1_id).2 = 1
  · simp [hA]
  · by_cases hB : (env.sys0Get cfg.ppu_sys0_id).2 = 0 ∧
        (env.sys1Get cfg.ppu_sys1_id).2 = 1
    · simp [hA, hB]
    · simp [hA, hB]

/-- Claim C6: the auxiliary-unit aggregation applies the target state to
every configured unit in configuration order through each unit's own
driver capability, and its outcome is identical for every environment —
in particular a failing unit driver neither aborts the remaining units
nor is observable to the caller (the aggregator returns no status). -/
theorem C6_aux_aggregation (cfg : Config) (env env' : Env) (state : Nat) :
    ext_ppus_set_state cfg env state =
      cfg.ext_ppus.map (fun u => HwOp.ppuSet u state) ∧
    ext_ppus_set_state cfg env state = ext_ppus_set_state cfg env' state := by
  constructor
  · exact ext_ppus_set_state_loop_eq_map env state cfg.ext_ppus
  · rw [ext_ppus_set_state, ext_ppus_set_state,
      ext_ppus_set_state_loop_eq_map, ext_ppus_set_state_loop_eq_map]

/-- Claim C9: `get_state` with a passing call check is a pure read — no
hardware operation, success status, and exactly the cached composite
state — while `set_state` and `shutdown` never modify the module
context (in particular they never write the cached state field). -/
theorem C9_get_state_pure (cfg : Config) (env : Env) (ctx : Ctx) (cc : Int)
    (state reason : Nat) :
    system_power_get_state ctx FWK_SUCCESS =
      (FWK_SUCCESS, Option.some ctx.state, []) ∧
    (system_power_set_state cfg env ctx cc state).2.1 = ctx ∧
    (system_power_shutdown cfg env ctx cc reason).2.1 = ctx := by
  refine ⟨by simp [system_power_get_state], set_state_preserves_ctx _ _ _ _ _, ?_⟩
  simp only [system_power_shutdown]
  split
  · exact set_state_preserves_ctx _ _ _ _ _
  · exact set_state_preserves_ctx _ _ _ _ _

/-- Claim C2 counterexample: in an environment whose rail `set_state`
calls all fail, the OFF-transition's rail-B-off call fails, yet
`shutdown` still returns success and still invokes the shutdown driver —
refuting that a failing rail call aborts the sequence, propagates its
status, and keeps the shutdown driver from being invoked. -/
theorem C2_counterexample :
    envRailFail.sys0Set cfgEx.ppu_sys1_id MOD_PD_STATE_OFF ≠ FWK_SUCCESS ∧
    (system_power_shutdown cfgEx envRailFail ctx0 FWK_SUCCESS 0).1 =
      FWK_SUCCESS ∧
    HwOp.shutdownCall 0 ∈
      (system_power_shutdown cfgEx envRailFail ctx0 FWK_SUCCESS 0).2.2 := by
  decide

/-- Claim C2 as amended: rail and auxiliary-unit driver statuses are
ignored by `set_state` — its status is identical for every environment,
so a rail or unit failure never aborts a sequence nor reaches the
caller; `shutdown` with a passing call check always runs the full OFF
sequence, then invokes the shutdown driver and returns the driver's
status unchanged; only a failing call check aborts `shutdown` before
the driver, returning that status with no operation performed. -/
theorem C2_failure_propagation_amended (cfg : Config) (env env' : Env)
    (ctx : Ctx) (cc : Int) (state reason : Nat) :
    (system_power_set_state cfg env ctx cc state).1 =
      (system_power_set_state cfg env' ctx cc state).1 ∧
    (system_power_shutdown cfg env ctx FWK_SUCCESS reason).1 =
      env.shutdownDrv reason ∧
    (system_power_shutdown cfg env ctx FWK_SUCCESS reason).2.2 =
      (system_power_set_state cfg env ctx FWK_SUCCESS MOD_PD_STATE_OFF).2.2 ++
        [HwOp.shutdownCall reason] ∧
    (cc ≠ FWK_SUCCESS →
      system_power_shutdown cfg env ctx cc reason = (cc, ctx, [])) := by
  have hoff : ∀ e : Env,
      (system_power_set_state cfg e ctx FWK_SUCCESS MOD_PD_STATE_OFF).1 =
        FWK_SUCCESS := by
    intro e
    rw [set_state_status_char]
    simp
  refine ⟨?_, ?_, ?_, fun h => ?_⟩
  · rw [set_state_status_char, set_state_status_char]
  · simp only [system_power_shutdown]
    rw [if_neg]
    simp [hoff env]
  · simp only [system_power_shutdown]
    rw [if_neg]
    simp [hoff env]
  · simp only [system_power_shutdown]
    rw [if_pos]
    · simp [system_power_set_state, h]
    · simp [system_power_set_state, h]

/-- Claim C2 witness: a failing call check (status `FWK_E_ACCESS`)
aborts `shutdown` with that status, no operation performed. -/
theorem C2_failure_propagation_amended_witness :
    system_power_shutdown cfgEx envOk ctx0 FWK_E_ACCESS 0 =
      (FWK_E_ACCESS, ctx0, []) :=
  (C2_failure_propagation_amended cfgEx envOk envOk ctx0 FWK_E_ACCESS
    MOD_PD_STATE_OFF 0).2.2.2 (by decide)

/-- Claim C4 counterexample: a bind request from power-domain element 1
is accepted and latches element 1 as `mod_pd_system_id`, yet the wakeup
handler's single request targets the static
`mod_system_power_soc_wakeup_pd_id` (power-domain element 0), which
differs from the latched identity — refuting that the handler targets
the identity latched at bind time. -/
theorem C4_counterexample :
    (system_power_process_bind_request cfgEx ctx0
        ⟨FwkIdType.elem, FWK_MODULE_IDX_POWER_DOMAIN, 1⟩ FWK_ID_NONE
        mod_system_power_api_id_pd_driver).1 = FWK_SUCCESS ∧
    (system_power_process_bind_request cfgEx ctx0
        ⟨FwkIdType.elem, FWK_MODULE_IDX_POWER_DOMAIN, 1⟩ FWK_ID_NONE
        mod_system_power_api_id_pd_driver).2.1.mod_pd_system_id =
      ⟨FwkIdType.elem, FWK_MODULE_IDX_POWER_DOMAIN, 1⟩ ∧
    (soc_wakeup_handler envOk).requests =
      [(mod_system_power_soc_wakeup_pd_id, false,
        MOD_SYSTEM_POWER_SOC_WAKEUP_STATE)] ∧
    mod_system_power_soc_wakeup_pd_id ≠
      ⟨FwkIdType.elem, FWK_MODULE_IDX_POWER_DOMAIN, 1⟩ := by
  decide

/-- Claim C4 as amended: on every firing of the wakeup interrupt the
handler issues exactly one asynchronous set-composite-state request with
the fixed fully-on two-levels-deep composite state, targeting the
static compile-time identifier `mod_system_power_soc_wakeup_pd_id`
(element 0 of the power-domain module) — not the bind-time-latched
identity, which the handler never reads — and a failing status from the
request fails the `fwk_expect` assertion-style check rather than being
silently ignored. -/
theorem C4_wakeup_handler_amended (env : Env) :
    (soc_wakeup_handler env).requests =
      [(mod_system_power_soc_wakeup_pd_id, false,
        MOD_SYSTEM_POWER_SOC_WAKEUP_STATE)] ∧
    mod_system_power_soc_wakeup_pd_id =
      ⟨FwkIdType.elem, FWK_MODULE_IDX_POWER_DOMAIN, 0⟩ ∧
    ((soc_wakeup_handler env).expectOk = true ↔
      env.setCompositeAsync mod_system_power_soc_wakeup_pd_id false
        MOD_SYSTEM_POWER_SOC_WAKEUP_STATE = FWK_SUCCESS) := by
  refine ⟨rfl, rfl, ?_⟩
  simp [soc_wakeup_handler]

/-- Claim C5 counterexample: the first power-domain requester (element 0)
is accepted and latched; a second, distinct power-domain requester
(element 1) is then also accepted and the latched identity is
overwritten — refuting that a second distinct requester is rejected and
the latched identity unchanged. -/
theorem C5_counterexample :
    (system_power_process_bind_request cfgEx ctx0
        ⟨FwkIdType.elem, FWK_MODULE_IDX_POWER_DOMAIN, 0⟩ FWK_ID_NONE
        mod_system_power_api_id_pd_driver).1 = FWK_SUCCESS ∧
    (system_power_process_bind_request cfgEx ctx0
        ⟨FwkIdType.elem, FWK_MODULE_IDX_POWER_DOMAIN, 0⟩ FWK_ID_NONE
        mod_system_power_api_id_pd_driver).2.1.mod_pd_system_id =
      ⟨FwkIdType.elem, FWK_MODULE_IDX_POWER_DOMAIN, 0⟩ ∧
    (system_power_process_bind_request cfgEx
        { state := MOD_PD_STATE_OFF,
          mod_pd_system_id := ⟨FwkIdType.elem, FWK_MODULE_IDX_POWER_DOMAIN, 0⟩ }
        ⟨FwkIdType.elem, FWK_MODULE_IDX_POWER_DOMAIN, 1⟩ FWK_ID_NONE
        mod_system_power_api_id_pd_driver).1 = FWK_SUCCESS ∧
    (system_power_process_bind_request cfgEx
        { state := MOD_PD_STATE_OFF,
          mod_pd_system_id := ⟨FwkIdType.elem, FWK_MODULE_IDX_POWER_DOMAIN, 0⟩ }
        ⟨FwkIdType.elem, FWK_MODULE_IDX_POWER_DOMAIN, 1⟩ FWK_ID_NONE
        mod_system_power_api_id_pd_driver).2.1.mod_pd_system_id =
      ⟨FwkIdType.elem, FWK_MODULE_IDX_POWER_DOMAIN, 1⟩ ∧
    (⟨FwkIdType.elem, FWK_MODULE_IDX_POWER_DOMAIN, 1⟩ : FwkId) ≠
      ⟨FwkIdType.elem, FWK_MODULE_IDX_POWER_DOMAIN, 0⟩ := by
  decide

/-- Claim C5 as amended: every bind request for the driver-facing
capability whose requester belongs to the power-domain module is
accepted, and each acceptance overwrites the latched nested-domain
identity with the requester — the module itself never rejects a second
distinct power-domain requester nor preserves the earlier latched
identity. -/
theorem C5_single_requester_amended (cfg : Config) (ctx : Ctx)
    (requester pd_id : FwkId)
    (h : fwk_id_build_module_id requester = fwk_module_id_power_domain) :
    system_power_process_bind_request cfg ctx requester pd_id
      mod_system_power_api_id_pd_driver =
      (FWK_SUCCESS, { ctx with mod_pd_system_id := requester },
       Option.some BindApi.pd_driver_api) := by
  simp [system_power_process_bind_request, h]

/-- Claim C5 witness: with element 0 already latched, the distinct
requester element 1 is accepted and the latched identity becomes
element 1. -/
theorem C5_single_requester_amended_witness :
    system_power_process_bind_request cfgEx
      { state := MOD_PD_STATE_OFF,
        mod_pd_system_id := ⟨FwkIdType.elem, FWK_MODULE_IDX_POWER_DOMAIN, 0⟩ }
      ⟨FwkIdType.elem, FWK_MODULE_IDX_POWER_DOMAIN, 1⟩ FWK_ID_NONE
      mod_system_power_api_id_pd_driver =
      (FWK_SUCCESS,
       { state := MOD_PD_STATE_OFF,
         mod_pd_system_id := ⟨FwkIdType.elem, FWK_MODULE_IDX_POWER_DOMAIN, 1⟩ },
       Option.some BindApi.pd_driver_api) :=
  C5_single_requester_amended cfgEx
    { state := MOD_PD_STATE_OFF,
      mod_pd_system_id := ⟨FwkIdType.elem, FWK_MODULE_IDX_POWER_DOMAIN, 0⟩ }
    ⟨FwkIdType.elem, FWK_MODULE_IDX_POWER_DOMAIN, 1⟩ FWK_ID_NONE (by decide)

/-- Claim C7: a driver-facing capability request from an identity not
belonging to the power-domain module returns access-denied with the
context — hence the latched nested-domain identifier — unchanged and no
capability handed back; a request for the transition-report capability
from an identity other than the two configured rail identities returns
access-denied with no capability handed back; and every request hands
back at most one of the module's two fixed capabilities, never any
other. -/
theorem C7_bind_arbitration (cfg : Config) (ctx : Ctx)
    (requester pd_id api_id : FwkId) :
    (api_id = mod_system_power_api_id_pd_driver →
      fwk_id_build_module_id requester ≠ fwk_module_id_power_domain →
      system_power_process_bind_request cfg ctx requester pd_id api_id =
        (FWK_E_ACCESS, ctx, Option.none)) ∧
    (api_id = mod_system_power_api_id_pd_driver_input →
      requester ≠ cfg.ppu_sys0_id → requester ≠ cfg.ppu_sys1_id →
      system_power_process_bind_request cfg ctx requester pd_id api_id =
        (FWK_E_ACCESS, ctx, Option.none)) ∧
    ((system_power_process_bind_request cfg ctx requester pd_id api_id).2.2 =
        Option.none ∨
     (system_power_process_bind_request cfg ctx requester pd_id api_id).2.2 =
        Option.some BindApi.pd_driver_api ∨
     (system_power_process_bind_request cfg ctx requester pd_id api_id).2.2 =
        Option.some BindApi.pd_driver_input_api) := by
  refine ⟨fun ha hr => ?_, fun ha hr0 hr1 => ?_, ?_⟩
  · simp [system_power_process_bind_request, ha, hr]
  · have hne : api_id ≠ mod_system_power_api_id_pd_driver := by
      rw [ha]
      decide
    simp [system_power_process_bind_request, hne, hr0, hr1]
  · unfold system_power_process_bind_request
    split
    · split
      · exact Or.inl rfl
      · exact Or.inr (Or.inl rfl)
    · split
      · exact Or.inl rfl
      · exact Or.inr (Or.inr rfl)

/-- Claim C7 witness: a non-coordinator identity is denied the
driver-facing capability with the latched identifier untouched, and an
unconfigured identity is denied the transition-report capability. -/
theorem C7_bind_arbitration_witness :
    system_power_process_bind_request cfgEx ctx0 ⟨FwkIdType.elem, 9, 9⟩
        FWK_ID_NONE mod_system_power_api_id_pd_driver =
      (FWK_E_ACCESS, ctx0, Option.none) ∧
    system_power_process_bind_request cfgEx ctx0 ⟨FwkIdType.elem, 9, 9⟩
        FWK_ID_NONE mod_system_power_api_id_pd_driver_input =
      (FWK_E_ACCESS, ctx0, Option.none) :=
  ⟨(C7_bind_arbitration cfgEx ctx0 ⟨FwkIdType.elem, 9, 9⟩ FWK_ID_NONE
      mod_system_power_api_id_pd_driver).1 rfl (by decide),
   (C7_bind_arbitration cfgEx ctx0 ⟨FwkIdType.elem, 9, 9⟩ FWK_ID_NONE
      mod_system_power_api_id_pd_driver_input).2.1 rfl (by decide) (by decide)⟩

/-- Claim C8: the startup probe reads rail B first; if the read succeeds
with `off`, the state is seeded `OFF` and rail A is never read (the
trace holds only the rail-B read); otherwise rail A is read, and a
successful `on` read seeds `ON` while a successful `off` read seeds
`RETAINED_SLEEP`. -/
theorem C8_startup_probe (cfg : Config) (env : Env) (ctx : Ctx) :
    (env.sys1Get cfg.ppu_sys1_id = (FWK_SUCCESS, MOD_PD_STATE_OFF) →
      system_power_start cfg env ctx =
        (FWK_SUCCESS, { ctx with state := MOD_PD_STATE_OFF },
         [HwOp.railGet RailApi.sys1 cfg.ppu_sys1_id])) ∧
    (∀ b, env.sys1Get cfg.ppu_sys1_id = (FWK_SUCCESS, b) →
      b ≠ MOD_PD_STATE_OFF →
      env.sys0Get cfg.ppu_sys0_id = (FWK_SUCCESS, MOD_PD_STATE_ON) →
      system_power_start cfg env ctx =
        (FWK_SUCCESS, { ctx with state := MOD_PD_STATE_ON },
         [HwOp.railGet RailApi.sys1 cfg.ppu_sys1_id,
          HwOp.railGet RailApi.sys0 cfg.ppu_sys0_id])) ∧
    (∀ b, env.sys1Get cfg.ppu_sys1_id = (FWK_SUCCESS, b) →
      b ≠ MOD_PD_STATE_OFF →
      env.sys0Get cfg.ppu_sys0_id = (FWK_SUCCESS, MOD_PD_STATE_OFF) →
      system_power_start cfg env ctx =
        (FWK_SUCCESS,
         { ctx with state := MOD_SYSTEM_POWER_POWER_STATE_SLEEP0 },
         [HwOp.railGet RailApi.sys1 cfg.ppu_sys1_id,
          HwOp.railGet RailApi.sys0 cfg.ppu_sys0_id])) := by
  refine ⟨fun h1 => ?_, fun b h1 hb h0 => ?_, fun b h1 hb h0 => ?_⟩
  · simp [system_power_start, h1]
  · simp [system_power_start, h1, hb, h0]
  · simp only [ MOD_PD_STATE_OFF] at hb
    simp [system_power_start, h1, hb, h0, MOD_PD_STATE_ON, MOD_PD_STATE_OFF]

/-- Claim C8 witness: with rail B reading back `off`, the probe seeds
`OFF` and performs only the rail-B read. -/
theorem C8_startup_probe_witness :
    system_power_start cfgEx envRailBOff ctx0 =
      (FWK_SUCCESS, { ctx0 with state := MOD_PD_STATE_OFF },
       [HwOp.railGet RailApi.sys1 cfgEx.ppu_sys1_id]) :=
  (C8_startup_probe cfgEx envRailBOff ctx0).1 (by decide)

/-- Claim C10: no transition sequence ever issues a rail write through
the SYS1 api — every rail write of `set_state`, including the one
targeting rail B's identifier, goes through the SYS0 api — while the
transition reporter and the startup probe issue no rail write at all,
the reporter reading rail B through the SYS1 api. -/
theorem C10_rail_api_usage (cfg : Config) (env : Env) (ctx : Ctx) (cc : Int)
    (state : Nat) (module_id : FwkId) (state_arg : Nat) :
    (∀ t s, HwOp.railSet RailApi.sys1 t s ∉
        (system_power_set_state cfg env ctx cc state).2.2) ∧
    (cc = FWK_SUCCESS →
      HwOp.railSet RailApi.sys0 cfg.ppu_sys1_id MOD_PD_STATE_ON ∈
        (system_power_set_state cfg env ctx cc MOD_PD_STATE_ON).2.2 ∧
      HwOp.railSet RailApi.sys0 cfg.ppu_sys1_id MOD_PD_STATE_ON ∈
        (system_power_set_state cfg env ctx cc
          MOD_SYSTEM_POWER_POWER_STATE_SLEEP0).2.2 ∧
      HwOp.railSet RailApi.sys0 cfg.ppu_sys1_id MOD_PD_STATE_OFF ∈
        (system_power_set_state cfg env ctx cc MOD_PD_STATE_OFF).2.2) ∧
    (∀ api t s, HwOp.railSet api t s ∉
        (system_power_report_power_state_transition cfg env ctx module_id
          state_arg).2.2) ∧
    HwOp.railGet RailApi.sys1 cfg.ppu_sys1_id ∈
      (system_power_report_power_state_transition cfg env ctx module_id
        state_arg).2.2 ∧
    (∀ api t s, HwOp.railSet api t s ∉
        (system_power_start cfg env ctx).2.2) := by
  refine ⟨fun t s => ?_, fun hcc => ?_, fun api t s => ?_, ?_, fun api t s => ?_⟩
  · unfold system_power_set_state
    split
    · simp
    · split
      · simp [ext_ppus_set_state, railSet_not_in_ext_loop]
      · split
        · simp [ext_ppus_set_state, railSet_not_in_ext_loop]
        · split
          · simp [ext_ppus_set_state, railSet_not_in_ext_loop]
          · simp
  · subst hcc
    refine ⟨?_, ?_, ?_⟩
    · simp [system_power_set_state]
    · simp [system_power_set_state, MOD_SYSTEM_POWER_POWER_STATE_SLEEP0,
        MOD_PD_STATE_COUNT, MOD_PD_STATE_ON]
    · simp [system_power_set_state, MOD_SYSTEM_POWER_POWER_STATE_SLEEP0,
        MOD_PD_STATE_COUNT, MOD_PD_STATE_ON, MOD_PD_STATE_OFF]
  · simp [system_power_report_power_state_transition]
  · simp [system_power_report_power_state_transition]
  · simp only [system_power_start]
    split
    · simp
    · split
      · simp
      · split
        · simp
        · simp

/-- Claim C10 witness: in the `ON` transition the write that turns rail B
on is issued through the SYS0 api with rail B's identifier as target. -/
theorem C10_rail_api_usage_witness :
    HwOp.railSet RailApi.sys0 cfgEx.ppu_sys1_id MOD_PD_STATE_ON ∈
      (system_power_set_state cfgEx envOk ctx0 FWK_SUCCESS
        MOD_PD_STATE_ON).2.2 :=
  ((C10_rail_api_usage cfgEx envOk ctx0 FWK_SUCCESS MOD_PD_STATE_ON
      FWK_ID_NONE 0).2.1 rfl).1

end SystemPower
